import Mathlib

/-!
Verification of the resource-lifecycle and job-orchestration layer of the
academic-reader repository.

The embedding covers:
* `src/workers/marker/app/models.py` — the thread-safe lazy model cache
  (`get_or_create_models`, `is_loaded`, `unload_models`);
* `src/workers/marker/app/main.py` — the HTTP endpoints `POST /unload`,
  `GET /jobs/job_id`, `GET /jobs/job_id/stream`, `POST /cancel/job_id`;
* `src/workers/lightonocr/app/vllm_manager.py` — the external-service
  supervisor (`start_vllm`);
* `src/workers/marker/app/handler.py` — the serverless handler's cleanup
  discipline.

All the Python functions below hold a module-level lock for the whole
critical section, so concurrent callers are serialized; the embedding
therefore models each operation as a pure state transformer and sequences
of calls as function composition.  Wall-clock time is modelled discretely:
the vLLM startup loop sleeps 2 seconds per iteration, so the iteration
counter advances the clock in steps of 2.

The repository's `process_manager.py` (the JobOrchestrator) is not among
the available source files — only its callers in `main.py` are — so its
registry primitives (`get_job`, `cleanup_finished`, `cancel_job`) are
modelled from the spec, each marked `Modelled from the spec:` below.  The
endpoint logic itself is translated from `main.py`.
-/

/-! ### Model cache (`src/workers/marker/app/models.py`)

The Python module keeps two globals: `_model_cache : dict | None` and
`_model_lock`.  The state below is that global, plus a ghost counter of how
many times the load routine (`create_model_dict`) has been invoked.  The
load routine itself is an external collaborator; it is passed in as
`loader`, indexed by the invocation count so that distinct invocations may
produce distinct handles, and returning `Except` because a load may raise. -/

structure ModelCache where
  cache : Option Nat
  loads : Nat
deriving DecidableEq

/-- `get_or_create_models`: under the lock, if `_model_cache is None` run
`create_model_dict()` and store the result, else return the cached dict.
An exception from the loader propagates and the assignment never happens,
so the cache stays empty. -/
def get_or_create_models (loader : Nat → Except String Nat) (st : ModelCache) :
    Except String Nat × ModelCache :=
  match st.cache with
  | some h => (.ok h, st)
  | none =>
    match loader st.loads with
    | .ok h => (.ok h, ⟨some h, st.loads + 1⟩)
    | .error e => (.error e, ⟨none, st.loads + 1⟩)

/-- `is_loaded`: `_model_cache is not None`. -/
def is_loaded (st : ModelCache) : Bool :=
  st.cache.isSome

/-- `unload_models`: under the lock, return `False` if the cache is `None`;
otherwise clear it (and free GPU memory via `torch.cuda.empty_cache`,
outside this model) and return `True`. -/
def unload_models (st : ModelCache) : Bool × ModelCache :=
  match st.cache with
  | none => (false, st)
  | some _ => (true, { st with cache := none })

/-- `n` sequential calls to `get_or_create_models` (the module lock
serializes concurrent callers into such a sequence), collecting results. -/
def runGets (loader : Nat → Except String Nat) : Nat → ModelCache →
    List (Except String Nat) × ModelCache
  | 0, st => ([], st)
  | n + 1, st =>
    let r := get_or_create_models loader st
    let rest := runGets loader n r.2
    (r.1 :: rest.1, rest.2)

/-! ### `POST /unload` endpoint (`src/workers/marker/app/main.py`)

The route handler is `return` of the literal `unloaded: False` with no
other effect: models only exist in the conversion subprocess, so the
endpoint touches no cache. -/

structure UnloadResponse where
  unloaded : Bool
deriving DecidableEq

/-- The `POST /unload` route of `main.py`: a no-op answering
`unloaded: False`; it never calls `unload_models`. -/
def unload_endpoint (st : ModelCache) : UnloadResponse × ModelCache :=
  (⟨false⟩, st)

/-! ### vLLM supervisor (`src/workers/lightonocr/app/vllm_manager.py`)

`start_vllm` holds `_vllm_lock` for its whole body.  Its no-op check is
`_vllm_process is not None and _vllm_process.poll() is None` — the OS's
answer to `poll()` at call time is the input `pollAlive` below.  When it
must spawn, it runs a polling loop: each iteration first checks
`poll()` (raising "vLLM process died unexpectedly" if the process exited),
then probes the health endpoint (returning `True` on HTTP 200), then
sleeps 2 seconds; the `while` guard `time.time() - start_time < timeout`
means iteration `i` (at elapsed time `2*i`) runs iff `2*i < timeout`, i.e.
there are `(timeout+1)/2` iterations before the "did not start in time"
error.  The environment is given by two oracles: `exited i` is what
`poll()` reports at iteration `i`, `healthy i` is whether the health probe
succeeds at iteration `i`.  Crucially, `_vllm_process` is assigned before
the loop, so on every error path the spawned (possibly still alive but
never-healthy) process stays stored; `passedHealth` is a ghost flag
recording whether the stored process ever passed its health check. -/

inductive StartError where
  | died
  | timedOut
deriving DecidableEq

structure VllmProc where
  passedHealth : Bool
deriving DecidableEq

structure VllmState where
  proc : Option VllmProc
deriving DecidableEq

/-- The readiness-polling loop of `start_vllm`, with `n` iterations of
fuel remaining and `i` the current iteration index: check `poll()` first
(raise on exit), then the health probe (return on 200), else sleep 2s and
continue; exhausted fuel is the startup-timeout error. -/
def pollLoop (exited healthy : Nat → Bool) : Nat → Nat → Except StartError Bool
  | 0, _ => .error .timedOut
  | n + 1, i =>
    if exited i then .error .died
    else if healthy i then .ok true
    else pollLoop exited healthy n (i + 1)

/-- Number of loop iterations permitted by the `while` guard
`time.time() - start_time < timeout` with a 2-second sleep per
iteration. -/
def numPolls (timeout : Nat) : Nat :=
  (timeout + 1) / 2

/-- The spawn-then-poll tail of `start_vllm`: `subprocess.Popen` stores the
new process handle, then the loop runs; on success the stored process has
passed health, on either error the handle remains stored without ever
having passed health. -/
def spawnAndPoll (exited healthy : Nat → Bool) (timeout : Nat) :
    Except StartError Bool × VllmState :=
  match pollLoop exited healthy (numPolls timeout) 0 with
  | .ok _ => (.ok true, ⟨some ⟨true⟩⟩)
  | .error e => (.error e, ⟨some ⟨false⟩⟩)

/-- `start_vllm`: under the lock, if a process handle is stored and
`poll()` says it is still alive (`pollAlive`), return `False` without
touching it; otherwise spawn and poll until healthy, died, or timeout. -/
def start_vllm (st : VllmState) (pollAlive : Bool) (exited healthy : Nat → Bool)
    (timeout : Nat) : Except StartError Bool × VllmState :=
  match st.proc with
  | some _ =>
    if pollAlive then (.ok false, st)
    else spawnAndPoll exited healthy timeout
  | none => spawnAndPoll exited healthy timeout

/-! ### Job registry and status endpoints (`src/workers/marker/app/main.py`)

Job records in `main.py` are dicts with fields `status`, `result`,
`error`, `html_content`; statuses are the strings `queued`, `running`,
`html_ready`, `completed`, `failed`, `cancelled`.  The registry is the
process manager's id-indexed table, modelled as an association list. -/

inductive JobStatus where
  | queued
  | running
  | html_ready
  | completed
  | failed
  | cancelled
deriving DecidableEq

structure Job where
  status : JobStatus
  result : Option String
  error : Option String
  html_content : Option String
deriving DecidableEq

/-- The three statuses `main.py` treats as finished:
`("completed", "failed", "cancelled")`. -/
def isTerminalStatus : JobStatus → Bool
  | .completed => true
  | .failed => true
  | .cancelled => true
  | _ => false

abbrev Registry := List (String × Job)

/-- Modelled from the spec: `process_manager.py` is not among the source
files; `manager.get_job(job_id)` is the JobRegistry's non-blocking
lookup. -/
def get_job : Registry → String → Option Job
  | [], _ => none
  | (k, j) :: rest, jid => if k = jid then some j else get_job rest jid

/-- Modelled from the spec: `process_manager.py` is not among the source
files; `manager.cleanup_finished(job_id)` removes a terminal job from the
registry. -/
def cleanup_finished (reg : Registry) (jid : String) : Registry :=
  reg.filter (fun p => !(p.1 == jid))

structure StatusResponse where
  job_id : String
  status : JobStatus
  result : Option String
  error : Option String
deriving DecidableEq

/-- The `GET /jobs/job_id` route of `main.py`: 404 if the job is unknown;
otherwise report the status, attaching `result` for `completed` (then
cleanup), `error` for `failed` (default "Unknown error", then cleanup),
and the fixed error text for `cancelled` (no cleanup in this branch). -/
def get_job_status (reg : Registry) (jid : String) :
    Except Nat (StatusResponse × Registry) :=
  match get_job reg jid with
  | none => .error 404
  | some job =>
    match job.status with
    | .completed => .ok (⟨jid, job.status, job.result, none⟩, cleanup_finished reg jid)
    | .failed =>
      .ok (⟨jid, job.status, none, some (job.error.getD "Unknown error")⟩,
        cleanup_finished reg jid)
    | .cancelled => .ok (⟨jid, job.status, none, some "Job was cancelled"⟩, reg)
    | _ => .ok (⟨jid, job.status, none, none⟩, reg)

structure CancelResponse where
  status : JobStatus
  message : Option String
  job_id : Option String
deriving DecidableEq

/-- Modelled from the spec: `process_manager.py` is not among the source
files; `manager.cancel_job(job_id)` signals the job's subprocess to
terminate (graceful then forced), transitions the job to `cancelled`, and
returns whether cancellation succeeded.  `succeeds` is the environment's
verdict on the termination attempt. -/
def manager_cancel_job (reg : Registry) (jid : String) (succeeds : Bool) :
    Bool × Registry :=
  if succeeds then
    (true, reg.map (fun p =>
      if p.1 == jid then (p.1, { p.2 with status := .cancelled }) else p))
  else (false, reg)

/-- The `POST /cancel/job_id` route of `main.py`: 404 if the job is
unknown; if the status is already terminal, answer with the current status
and the message "Job already finished" without touching anything;
otherwise delegate to `manager.cancel_job`, answering 500 on failure. -/
def cancel_job (reg : Registry) (jid : String) (succeeds : Bool) :
    Except Nat (CancelResponse × Registry) :=
  match get_job reg jid with
  | none => .error 404
  | some job =>
    if isTerminalStatus job.status then
      .ok (⟨job.status, some "Job already finished", none⟩, reg)
    else
      let r := manager_cancel_job reg jid succeeds
      if r.1 then .ok (⟨.cancelled, none, some jid⟩, r.2)
      else .error 500

/-! ### Stream endpoint (`src/workers/marker/app/main.py`)

`stream_job_status` runs an event-generator loop: each iteration blocks on
the job's progress queue with a 0.5s timeout; a dequeued event is forwarded
immediately as a `progress` frame and the loop continues; on `Empty` the
job's status is consulted — missing job emits an error frame and stops,
`completed` emits an optional one-time `html_ready` frame then the
`completed` frame and stops, `failed`/`cancelled` emit their frame and
stop, `html_ready` status emits the one-time `html_ready` frame (guarded
by the `html_ready_sent` flag) and the loop continues.  One loop iteration
is one `StreamStep`: either a dequeued queue event, or a queue timeout
bundled with the `get_job` snapshot it observes.  The wall-clock `elapsed`
field of a progress frame and the `cleanup_finished` side effect of the
terminal branches are outside this emission model (the latter is verified
on the polling endpoint). -/

inductive StreamStep where
  | fromQueue (stage : String) (current total : Nat)
  | timeout (snap : Option Job)
deriving DecidableEq

inductive SSE where
  | progress (stage : String) (current total : Nat)
  | html_ready (content : String)
  | completed (result : String)
  | failed (error : String)
  | cancelled
  | notFound
deriving DecidableEq

/-- The event-generator loop of `GET /jobs/job_id/stream`, consuming a
trace of loop iterations with the `html_ready_sent` flag threaded
through. -/
def stream_job_status : List StreamStep → Bool → List SSE
  | [], _ => []
  | .fromQueue stage cur tot :: rest, sent =>
    .progress stage cur tot :: stream_job_status rest sent
  | .timeout none :: _, _ => [.notFound]
  | .timeout (some j) :: rest, sent =>
    match j.status with
    | .completed =>
      if sent = false ∧ j.html_content.isSome then
        [.html_ready (j.html_content.getD ""), .completed (j.result.getD "")]
      else
        [.completed (j.result.getD "")]
    | .failed => [.failed (j.error.getD "Unknown error")]
    | .cancelled => [.cancelled]
    | .html_ready =>
      if sent = false then
        .html_ready (j.html_content.getD "") :: stream_job_status rest true
      else stream_job_status rest sent
    | _ => stream_job_status rest sent

/-- A loop iteration on which the generator stops: a missing job or a
terminal status snapshot. -/
def stops : StreamStep → Bool
  | .timeout none => true
  | .timeout (some j) => isTerminalStatus j.status
  | .fromQueue _ _ _ => false

def isTerminalSSE : SSE → Bool
  | .completed _ => true
  | .failed _ => true
  | .cancelled => true
  | _ => false

def isHtmlSSE : SSE → Bool
  | .html_ready _ => true
  | _ => false

def isProgressSSE : SSE → Bool
  | .progress _ _ _ => true
  | _ => false

/-- The progress frame a queue event is forwarded as, if any. -/
def queuedOf : StreamStep → Option SSE
  | .fromQueue stage cur tot => some (.progress stage cur tot)
  | _ => none

/-- Proof device: the frames the generator emits while consuming a prefix
of non-stopping iterations, together with the resulting
`html_ready_sent` flag. -/
def consumePre : List StreamStep → Bool → List SSE × Bool
  | [], sent => ([], sent)
  | .fromQueue stage cur tot :: rest, sent =>
    let r := consumePre rest sent
    (.progress stage cur tot :: r.1, r.2)
  | .timeout none :: rest, sent => consumePre rest sent
  | .timeout (some j) :: rest, sent =>
    match j.status with
    | .html_ready =>
      if sent = false then
        let r := consumePre rest true
        (.html_ready (j.html_content.getD "") :: r.1, r.2)
      else consumePre rest sent
    | _ => consumePre rest sent

/-! ### Serverless handler (`src/workers/marker/app/handler.py`)

The handler validates its input fields, installs (or clears) the global
progress-webhook callback, creates a temp file (`delete=False`) and
downloads into it, then runs the conversion and uploads the result inside
a `try` whose `finally` unlinks the temp file and clears the callback.
The download, conversion and upload are external collaborators, given as
the environment below; the globals touched are the webhook callback slot
(holding the webhook URL) and the temp file's existence on disk. -/

structure HandlerInput where
  file_url : Option String
  result_upload_url : Option String
  progress_webhook_url : Option String
deriving DecidableEq

structure HandlerEnv where
  download_ok : Bool
  conversion : Except String String
  upload_ok : Bool

structure GlobalState where
  webhook_callback : Option String
  temp_file_exists : Bool
deriving DecidableEq

inductive HandlerResult where
  | s3_result
  | error (msg : String)
deriving DecidableEq

/-- The Runpod serverless `handler` of `handler.py`: field validation,
webhook-callback installation, temp-file download, conversion, S3 upload,
with `finally: temp_path.unlink(); set_webhook_callback(None)` wrapping the
conversion/upload section (`set_webhook_callback` lives in `progress.py`,
not among the source files; per the spec it overwrites the globally
installed progress hook). -/
def handler (inp : HandlerInput) (env : HandlerEnv) (g : GlobalState) :
    HandlerResult × GlobalState :=
  match inp.file_url with
  | none => (.error "Missing required field: file_url", g)
  | some _ =>
    match inp.result_upload_url with
    | none => (.error "Missing required field: result_upload_url", g)
    | some _ =>
      -- set_webhook_callback(send_progress) when a webhook URL is given,
      -- else set_webhook_callback(None)
      let g1 : GlobalState := { g with webhook_callback := inp.progress_webhook_url }
      -- NamedTemporaryFile(delete=False): the temp file now exists on disk
      let g2 : GlobalState := { g1 with temp_file_exists := true }
      if env.download_ok = false then
        -- early return inside the `with` block: no unlink, callback kept
        (.error "Failed to download file", g2)
      else
        -- try/except/finally: every path below runs the finally block
        let gFin : GlobalState := { webhook_callback := none, temp_file_exists := false }
        match env.conversion with
        | .error e => (.error ("Conversion failed: " ++ e), gFin)
        | .ok _ =>
          if env.upload_ok then (.s3_result, gFin)
          else (.error "Failed to upload result to S3", gFin)

/-! ## Theorems about the model cache -/

/-- C1: starting from an empty cache, `n ≥ 1` serialized callers of
`get_or_create_models` trigger exactly one invocation of the load routine,
and every caller receives the identical handle produced by that single
load. -/
theorem C1_single_flight (loader : Nat → Except String Nat) (L n : Nat) (h : Nat)
    (hn : 1 ≤ n) (hload : loader L = .ok h) :
    runGets loader n ⟨none, L⟩ = (List.replicate n (.ok h), ⟨some h, L + 1⟩) := by
  obtain ⟨m, rfl⟩ : ∃ m, n = m + 1 := ⟨n - 1, by omega⟩
  have cached : ∀ k st, st = (⟨some h, L + 1⟩ : ModelCache) →
      runGets loader k st = (List.replicate k (.ok h), ⟨some h, L + 1⟩) := by
    intro k
    induction k with
    | zero => intro st hst; simp [runGets, hst]
    | succ k ih =>
      intro st hst
      subst hst
      simp [runGets, get_or_create_models, ih _ rfl, List.replicate_succ]
  simp [runGets, get_or_create_models, hload, cached _ _ rfl, List.replicate_succ]

theorem C1_single_flight_witness :
    1 ≤ 3 ∧ (fun _ : Nat => (Except.ok 42 : Except String Nat)) 0 = .ok 42 ∧
    runGets (fun _ => .ok 42) 3 ⟨none, 0⟩ = (List.replicate 3 (.ok 42), ⟨some 42, 1⟩) :=
  ⟨by decide, rfl, C1_single_flight (fun _ => .ok 42) 0 3 42 (by decide) rfl⟩

/-- C7: if the load routine raises while the cache is empty, the error
propagates to the caller, the cache is left empty (`is_loaded` is false and
no handle is stored), and the next call invokes the loader again — a
failure is never cached. -/
theorem C7_failure_not_cached (loader : Nat → Except String Nat) (st : ModelCache)
    (e : String) (hempty : st.cache = none) (hfail : loader st.loads = .error e) :
    get_or_create_models loader st = (.error e, ⟨none, st.loads + 1⟩) ∧
    is_loaded (get_or_create_models loader st).2 = false ∧
    (∀ h2, loader (st.loads + 1) = .ok h2 →
      get_or_create_models loader (get_or_create_models loader st).2 =
        (.ok h2, ⟨some h2, st.loads + 2⟩)) := by
  refine ⟨?_, ?_, ?_⟩
  · simp [get_or_create_models, hempty, hfail]
  · simp [get_or_create_models, hempty, hfail, is_loaded]
  · intro h2 hh2
    simp [get_or_create_models, hempty, hfail, hh2]

theorem C7_failure_not_cached_witness :
    (⟨none, 0⟩ : ModelCache).cache = none ∧
    (fun k : Nat => if k = 0 then (Except.error "boom" : Except String Nat) else .ok 7) 0 =
      .error "boom" ∧
    (get_or_create_models (fun k => if k = 0 then .error "boom" else .ok 7) ⟨none, 0⟩ =
        (.error "boom", ⟨none, 1⟩) ∧
      is_loaded (get_or_create_models (fun k => if k = 0 then .error "boom" else .ok 7)
          ⟨none, 0⟩).2 = false ∧
      (∀ h2, (fun k : Nat => if k = 0 then (Except.error "boom" : Except String Nat) else .ok 7)
            (0 + 1) = .ok h2 →
        get_or_create_models (fun k => if k = 0 then .error "boom" else .ok 7)
            (get_or_create_models (fun k => if k = 0 then .error "boom" else .ok 7)
              ⟨none, 0⟩).2 =
          (.ok h2, ⟨some h2, 0 + 2⟩))) :=
  ⟨rfl, rfl,
    C7_failure_not_cached (fun k => if k = 0 then .error "boom" else .ok 7) ⟨none, 0⟩
      "boom" rfl rfl⟩

/-- C8: `unload_models` returns `false` on an empty cache; after a
successful load it returns `true` on the first call, clearing the stored
handle, and returns `false` on every subsequent call until a new load. -/
theorem C8_unload_idempotent (loader : Nat → Except String Nat) (L h : Nat)
    (hload : loader L = .ok h) :
    unload_models (get_or_create_models loader ⟨none, L⟩).2 = (true, ⟨none, L + 1⟩) ∧
    unload_models ⟨none, L + 1⟩ = (false, ⟨none, L + 1⟩) ∧
    (∀ st : ModelCache, st.cache = none → unload_models st = (false, st)) := by
  refine ⟨?_, rfl, ?_⟩
  · simp [get_or_create_models, hload, unload_models]
  · intro st hst
    simp [unload_models, hst]

theorem C8_unload_idempotent_witness :
    (fun _ : Nat => (Except.ok 9 : Except String Nat)) 5 = .ok 9 ∧
    (unload_models (get_or_create_models (fun _ => .ok 9) ⟨none, 5⟩).2 =
        (true, ⟨none, 5 + 1⟩) ∧
      unload_models ⟨none, 5 + 1⟩ = (false, ⟨none, 5 + 1⟩) ∧
      (∀ st : ModelCache, st.cache = none → unload_models st = (false, st))) :=
  ⟨rfl, C8_unload_idempotent (fun _ => .ok 9) 5 9 rfl⟩

/-- C4 counterexample: with a loaded cache, the `POST /unload` endpoint
still answers `unloaded = false` and leaves the resource loaded — it
never performs the ResourceCache unload, contradicting the claim that the
boolean reports an actual release. -/
theorem C4_unload_endpoint_counterexample :
    (unload_endpoint ⟨some 7, 1⟩).1.unloaded = false ∧
    is_loaded (unload_endpoint ⟨some 7, 1⟩).2 = true := by
  exact ⟨rfl, rfl⟩

/-- C4 amended: the `POST /unload` endpoint is a deliberate no-op — for
every cache state it returns `unloaded = false` and leaves the state
untouched (the models only exist in the conversion subprocess, so there is
nothing for this endpoint to release). -/
theorem C4_unload_endpoint_noop (st : ModelCache) :
    unload_endpoint st = (⟨false⟩, st) :=
  rfl

/-! ## Theorems about the vLLM supervisor -/

/-- The polling loop never returns `.ok false`. -/
theorem pollLoop_ne_ok_false (exited healthy : Nat → Bool) :
    ∀ n i, pollLoop exited healthy n i ≠ .ok false := by
  intro n
  induction n with
  | zero => intro i h; simp [pollLoop] at h
  | succ n ih =>
    intro i h
    simp only [pollLoop] at h
    by_cases he : exited i
    · simp [he] at h
    · by_cases hh : healthy i
      · simp [he, hh] at h
      · simp [he, hh] at h
        exact ih (i + 1) h

/-- Success characterization of the polling loop: it returns `.ok true`
iff some iteration within the fuel window sees a successful health probe
with no process exit observed at or before it. -/
theorem pollLoop_ok_iff (exited healthy : Nat → Bool) :
    ∀ n i, pollLoop exited healthy n i = .ok true ↔
      ∃ k, k < n ∧ healthy (i + k) = true ∧ ∀ m, m ≤ k → exited (i + m) = false := by
  intro n
  induction n with
  | zero =>
    intro i
    simp [pollLoop]
  | succ n ih =>
    intro i
    simp only [pollLoop]
    by_cases he : exited i = true
    · rw [if_pos he]
      constructor
      · intro h; exact absurd h (by simp)
      · rintro ⟨k, -, -, hex⟩
        have := hex 0 (Nat.zero_le k)
        simp [he] at this
    · by_cases hh : healthy i = true
      · rw [if_neg he, if_pos hh]
        constructor
        · intro _
          exact ⟨0, Nat.succ_pos n, by simpa using hh, by
            intro m hm
            interval_cases m
            simpa using he⟩
        · intro _; rfl
      · rw [if_neg he, if_neg hh]
        rw [ih (i + 1)]
        constructor
        · rintro ⟨k, hk, hhk, hex⟩
          refine ⟨k + 1, by omega, by rwa [show i + (k + 1) = i + 1 + k by omega], ?_⟩
          intro m hm
          match m with
          | 0 => simpa using he
          | m + 1 =>
            have := hex m (by omega)
            rwa [show i + (m + 1) = i + 1 + m by omega]
        · rintro ⟨k, hk, hhk, hex⟩
          match k with
          | 0 => simp at hhk; exact absurd hhk hh
          | k + 1 =>
            refine ⟨k, by omega, by rwa [show i + 1 + k = i + (k + 1) by omega], ?_⟩
            intro m hm
            have := hex (m + 1) (by omega)
            rwa [show i + (m + 1) = i + 1 + m by omega] at this

/-- Death characterization of the polling loop: it raises the
died-unexpectedly error iff the first iteration at which anything decisive
happens observes a process exit (health probes after that point are never
consulted — the error is immediate). -/
theorem pollLoop_died_iff (exited healthy : Nat → Bool) :
    ∀ n i, pollLoop exited healthy n i = .error .died ↔
      ∃ k, k < n ∧ exited (i + k) = true ∧
        ∀ m, m < k → exited (i + m) = false ∧ healthy (i + m) = false := by
  intro n
  induction n with
  | zero =>
    intro i
    simp [pollLoop]
  | succ n ih =>
    intro i
    simp only [pollLoop]
    by_cases he : exited i = true
    · rw [if_pos he]
      constructor
      · intro _
        exact ⟨0, Nat.succ_pos n, by simpa using he, by omega⟩
      · intro _; rfl
    · by_cases hh : healthy i = true
      · rw [if_neg he, if_pos hh]
        constructor
        · intro h; exact absurd h (by simp)
        · rintro ⟨k, hk, hek, hprev⟩
          match k with
          | 0 => simp [he] at hek
          | k + 1 =>
            have := hprev 0 (by omega)
            simp [hh] at this
      · rw [if_neg he, if_neg hh]
        rw [ih (i + 1)]
        constructor
        · rintro ⟨k, hk, hek, hprev⟩
          refine ⟨k + 1, by omega, by rwa [show i + (k + 1) = i + 1 + k by omega], ?_⟩
          intro m hm
          match m with
          | 0 => exact ⟨by simpa using he, by simpa using hh⟩
          | m + 1 =>
            have := hprev m (by omega)
            rwa [show i + (m + 1) = i + 1 + m by omega]
        · rintro ⟨k, hk, hek, hprev⟩
          match k with
          | 0 => simp [he] at hek
          | k + 1 =>
            refine ⟨k, by omega, by rwa [show i + 1 + k = i + (k + 1) by omega], ?_⟩
            intro m hm
            have := hprev (m + 1) (by omega)
            rwa [show i + (m + 1) = i + 1 + m by omega] at this

/-- Timeout characterization of the polling loop: it raises the
startup-timeout error iff every iteration in the window observes neither a
process exit nor a successful health probe. -/
theorem pollLoop_timedOut_iff (exited healthy : Nat → Bool) :
    ∀ n i, pollLoop exited healthy n i = .error .timedOut ↔
      ∀ k, k < n → exited (i + k) = false ∧ healthy (i + k) = false := by
  intro n
  induction n with
  | zero =>
    intro i
    simp [pollLoop]
  | succ n ih =>
    intro i
    simp only [pollLoop]
    by_cases he : exited i = true
    · rw [if_pos he]
      constructor
      · intro h; exact absurd h (by simp)
      · intro hall
        have := hall 0 (Nat.succ_pos n)
        simp [he] at this
    · by_cases hh : healthy i = true
      · rw [if_neg he, if_pos hh]
        constructor
        · intro h; exact absurd h (by simp)
        · intro hall
          have := hall 0 (Nat.succ_pos n)
          simp [hh] at this
      · rw [if_neg he, if_neg hh]
        rw [ih (i + 1)]
        constructor
        · intro hall k hk
          match k with
          | 0 => exact ⟨by simpa using he, by simpa using hh⟩
          | k + 1 =>
            have := hall k (by omega)
            rwa [show i + (k + 1) = i + 1 + k by omega]
        · intro hall k hk
          have := hall (k + 1) (by omega)
          rwa [show i + (k + 1) = i + 1 + k by omega] at this

/-- Reindexing: `i < numPolls timeout` iff iteration `i`, which starts at
elapsed time `2*i`, satisfies the `while` guard `2*i < timeout`. -/
theorem lt_numPolls_iff (i timeout : Nat) : i < numPolls timeout ↔ 2 * i < timeout := by
  unfold numPolls
  omega

/-- C6: when `start_vllm` must spawn (no stored process), it raises the
died-unexpectedly error iff the spawned process's exit is the first
decisive observation (raised at that iteration, without consulting any
later probe), raises the startup-timeout error iff no iteration inside the
`2*i < timeout` window (one poll every 2 seconds) observes exit or health,
returns `true` iff some health probe succeeds within the window before any
exit, and never returns `false`. -/
theorem C6_spawn_error_characterization (exited healthy : Nat → Bool) (timeout : Nat) :
    ((start_vllm ⟨none⟩ true exited healthy timeout).1 = .ok true ↔
      ∃ i, 2 * i < timeout ∧ healthy i = true ∧ ∀ j, j ≤ i → exited j = false) ∧
    ((start_vllm ⟨none⟩ true exited healthy timeout).1 = .error .died ↔
      ∃ i, 2 * i < timeout ∧ exited i = true ∧
        ∀ j, j < i → exited j = false ∧ healthy j = false) ∧
    ((start_vllm ⟨none⟩ true exited healthy timeout).1 = .error .timedOut ↔
      ∀ i, 2 * i < timeout → exited i = false ∧ healthy i = false) ∧
    (start_vllm ⟨none⟩ true exited healthy timeout).1 ≠ .ok false := by
  have hfst : (start_vllm ⟨none⟩ true exited healthy timeout).1 =
      pollLoop exited healthy (numPolls timeout) 0 := by
    unfold start_vllm spawnAndPoll
    rcases hcase : pollLoop exited healthy (numPolls timeout) 0 with e | b
    · simp [hcase]
    · cases b
      · exact absurd hcase (pollLoop_ne_ok_false exited healthy _ _)
      · simp [hcase]
  rw [hfst]
  refine ⟨?_, ?_, ?_, pollLoop_ne_ok_false exited healthy _ _⟩
  · rw [pollLoop_ok_iff]
    constructor
    · rintro ⟨k, hk, hhk, hex⟩
      exact ⟨k, (lt_numPolls_iff k timeout).mp hk, by simpa using hhk, fun j hj => by
        simpa using hex j hj⟩
    · rintro ⟨i, hi, hhi, hex⟩
      exact ⟨i, (lt_numPolls_iff i timeout).mpr hi, by simpa using hhi, fun m hm => by
        simpa using hex m hm⟩
  · rw [pollLoop_died_iff]
    constructor
    · rintro ⟨k, hk, hek, hprev⟩
      exact ⟨k, (lt_numPolls_iff k timeout).mp hk, by simpa using hek, fun j hj => by
        simpa using hprev j hj⟩
    · rintro ⟨i, hi, hei, hprev⟩
      exact ⟨i, (lt_numPolls_iff i timeout).mpr hi, by simpa using hei, fun m hm => by
        simpa using hprev m hm⟩
  · rw [pollLoop_timedOut_iff]
    constructor
    · intro hall i hi
      simpa using hall i ((lt_numPolls_iff i timeout).mpr hi)
    · intro hall k hk
      simpa using hall k ((lt_numPolls_iff k timeout).mp hk)

/-- C3 counterexample: a first `start_vllm` against a process that never
becomes healthy raises the startup-timeout error but leaves the spawned
handle stored with `passedHealth = false`; a second `start_vllm` on that
state, with `poll()` reporting the process alive, returns `false` as a
no-op — so `start_vllm` returns `false` for a process that is running but
has never passed its health check, contradicting "exactly when already
running and healthy". -/
theorem C3_noop_counterexample :
    (start_vllm ⟨none⟩ true (fun _ => false) (fun _ => false) 300).1 =
      .error .timedOut ∧
    (start_vllm ⟨none⟩ true (fun _ => false) (fun _ => false) 300).2 =
      ⟨some ⟨false⟩⟩ ∧
    (start_vllm ⟨some ⟨false⟩⟩ true (fun _ => false) (fun _ => false) 300).1 =
      .ok false := by
  refine ⟨?_, ?_, rfl⟩
  · have : pollLoop (fun _ => false) (fun _ => false) (numPolls 300) 0 =
        .error .timedOut := by
      rw [pollLoop_timedOut_iff]
      intro k _
      exact ⟨rfl, rfl⟩
    simp [start_vllm, spawnAndPoll, this]
  · have : pollLoop (fun _ => false) (fun _ => false) (numPolls 300) 0 =
        .error .timedOut := by
      rw [pollLoop_timedOut_iff]
      intro k _
      exact ⟨rfl, rfl⟩
    simp [start_vllm, spawnAndPoll, this]

/-- C3 amended: `start_vllm` returns `false` as a no-op exactly when a
process handle is stored and `poll()` reports it alive — regardless of
whether it ever passed its health check — and in that case the state is
untouched; in every other case it spawns and either returns `true` once
ready or raises. -/
theorem C3_noop_iff_alive (st : VllmState) (pollAlive : Bool)
    (exited healthy : Nat → Bool) (timeout : Nat) :
    ((start_vllm st pollAlive exited healthy timeout).1 = .ok false ↔
      st.proc.isSome = true ∧ pollAlive = true) ∧
    (st.proc.isSome = true → pollAlive = true →
      start_vllm st pollAlive exited healthy timeout = (.ok false, st)) := by
  have hspawn : ∀ e h t, (spawnAndPoll e h t).1 ≠ Except.ok false := by
    intro e h t
    unfold spawnAndPoll
    rcases hcase : pollLoop e h (numPolls t) 0 with err | b
    · simp [hcase]
    · cases b
      · exact absurd hcase (pollLoop_ne_ok_false e h _ _)
      · simp [hcase]
  constructor
  · rcases hp : st.proc with - | p
    · simp only [start_vllm, hp]
      constructor
      · intro h; exact absurd h (hspawn exited healthy timeout)
      · rintro ⟨h, -⟩; simp at h
    · simp only [start_vllm, hp]
      by_cases ha : pollAlive = true
      · simp [ha]
      · rw [if_neg ha]
        constructor
        · intro h; exact absurd h (hspawn exited healthy timeout)
        · rintro ⟨-, h⟩; exact absurd h ha
  · intro hsome halive
    rcases hp : st.proc with - | p
    · rw [hp] at hsome; simp at hsome
    · simp [start_vllm, hp, halive]

theorem C3_noop_iff_alive_witness :
    (VllmState.mk (some ⟨true⟩)).proc.isSome = true ∧
    (((start_vllm ⟨some ⟨true⟩⟩ true (fun _ => false) (fun _ => false) 300).1 = .ok false ↔
        (VllmState.mk (some ⟨true⟩)).proc.isSome = true ∧ true = true) ∧
      ((VllmState.mk (some ⟨true⟩)).proc.isSome = true → true = true →
        start_vllm ⟨some ⟨true⟩⟩ true (fun _ => false) (fun _ => false) 300 =
          (.ok false, ⟨some ⟨true⟩⟩))) :=
  ⟨rfl, C3_noop_iff_alive ⟨some ⟨true⟩⟩ true (fun _ => false) (fun _ => false) 300⟩

/-! ## Theorems about the status and cancel endpoints -/

/-- C2 counterexample: a registry holding one cancelled job; the
`GET /jobs/job_id` read reports the terminal status `cancelled` (with the
fixed error text) yet returns the registry unchanged — the job is still
present afterwards, so the read does not remove cancelled jobs, refuting
"for all three terminal statuses". -/
theorem C2_cancelled_read_keeps_job_counterexample :
    get_job_status [("j1", ⟨.cancelled, none, none, none⟩)] "j1" =
      .ok (⟨"j1", .cancelled, none, some "Job was cancelled"⟩,
        [("j1", ⟨.cancelled, none, none, none⟩)]) ∧
    get_job [("j1", (⟨.cancelled, none, none, none⟩ : Job))] "j1" =
      some ⟨.cancelled, none, none, none⟩ := by
  constructor <;> rfl

/-- C2 amended: a `GET /jobs/job_id` read that reports a terminal status
invokes the registry cleanup for `completed` and `failed` only; a
`cancelled` job's status is reported (with error "Job was cancelled") but
the job is left in the registry by this endpoint. -/
theorem C2_cleanup_on_read (reg : Registry) (jid : String) (job : Job)
    (h : get_job reg jid = some job) :
    (job.status = .completed →
      get_job_status reg jid =
        .ok (⟨jid, .completed, job.result, none⟩, cleanup_finished reg jid)) ∧
    (job.status = .failed →
      get_job_status reg jid =
        .ok (⟨jid, .failed, none, some (job.error.getD "Unknown error")⟩,
          cleanup_finished reg jid)) ∧
    (job.status = .cancelled →
      get_job_status reg jid =
        .ok (⟨jid, .cancelled, none, some "Job was cancelled"⟩, reg)) := by
  refine ⟨?_, ?_, ?_⟩ <;> intro hs <;> simp [get_job_status, h, hs]

theorem C2_cleanup_on_read_witness :
    get_job [("a", (⟨.completed, some "r", none, none⟩ : Job))] "a" =
      some ⟨.completed, some "r", none, none⟩ ∧
    (((⟨.completed, some "r", none, none⟩ : Job).status = .completed →
      get_job_status [("a", ⟨.completed, some "r", none, none⟩)] "a" =
        .ok (⟨"a", .completed, (⟨.completed, some "r", none, none⟩ : Job).result, none⟩,
          cleanup_finished [("a", ⟨.completed, some "r", none, none⟩)] "a")) ∧
    ((⟨.completed, some "r", none, none⟩ : Job).status = .failed →
      get_job_status [("a", ⟨.completed, some "r", none, none⟩)] "a" =
        .ok (⟨"a", .failed, none,
            some ((⟨.completed, some "r", none, none⟩ : Job).error.getD "Unknown error")⟩,
          cleanup_finished [("a", ⟨.completed, some "r", none, none⟩)] "a")) ∧
    ((⟨.completed, some "r", none, none⟩ : Job).status = .cancelled →
      get_job_status [("a", ⟨.completed, some "r", none, none⟩)] "a" =
        .ok (⟨"a", .cancelled, none, some "Job was cancelled"⟩,
          [("a", ⟨.completed, some "r", none, none⟩)]))) :=
  ⟨by decide, C2_cleanup_on_read [("a", ⟨.completed, some "r", none, none⟩)] "a"
    ⟨.completed, some "r", none, none⟩ (by decide)⟩

/-- C9: a `POST /cancel/job_id` request for a job already in a terminal
state is a no-op — it answers with the job's current status and the
message "Job already finished", never delegates to the manager's
cancellation, and returns the registry unchanged, so the job's status and
result fields (in particular a completed job's result) are untouched. -/
theorem C9_cancel_terminal_noop (reg : Registry) (jid : String) (job : Job) (b : Bool)
    (h : get_job reg jid = some job) (ht : isTerminalStatus job.status = true) :
    cancel_job reg jid b = .ok (⟨job.status, some "Job already finished", none⟩, reg) := by
  simp [cancel_job, h, ht]

theorem C9_cancel_terminal_noop_witness :
    get_job [("a", (⟨.completed, some "r", none, none⟩ : Job))] "a" =
      some ⟨.completed, some "r", none, none⟩ ∧
    isTerminalStatus (⟨.completed, some "r", none, none⟩ : Job).status = true ∧
    cancel_job [("a", ⟨.completed, some "r", none, none⟩)] "a" true =
      .ok (⟨(⟨.completed, some "r", none, none⟩ : Job).status,
          some "Job already finished", none⟩,
        [("a", ⟨.completed, some "r", none, none⟩)]) :=
  ⟨by decide, by decide,
    C9_cancel_terminal_noop [("a", ⟨.completed, some "r", none, none⟩)] "a"
      ⟨.completed, some "r", none, none⟩ true (by decide) (by decide)⟩

/-! ## Theorems about the stream endpoint -/

/-- A terminal frame is neither a progress frame nor an html-ready
frame. -/
theorem isTerminalSSE_disjoint (e : SSE) (h : isTerminalSSE e = true) :
    isHtmlSSE e = false ∧ isProgressSSE e = false := by
  cases e <;> simp_all [isTerminalSSE, isHtmlSSE, isProgressSSE]

/-- Running the generator over a prefix of non-stopping iterations emits
exactly the frames `consumePre` computes and continues with its resulting
flag. -/
theorem stream_append_consumePre (rest : List StreamStep) :
    ∀ (pre : List StreamStep) (sent : Bool), (∀ s ∈ pre, stops s = false) →
      stream_job_status (pre ++ rest) sent =
        (consumePre pre sent).1 ++ stream_job_status rest (consumePre pre sent).2 := by
  intro pre
  induction pre with
  | nil => intro sent _; simp [consumePre]
  | cons s pre ih =>
    intro sent hpre
    have hs : stops s = false := hpre s (by simp)
    have hpre' : ∀ x ∈ pre, stops x = false := fun x hx => hpre x (by simp [hx])
    cases s with
    | fromQueue stage cur tot =>
      simp [stream_job_status, consumePre, ih sent hpre']
    | timeout snap =>
      cases snap with
      | none => simp [stops] at hs
      | some j =>
        have hj : isTerminalStatus j.status = false := by simpa [stops] using hs
        cases hstatus : j.status with
        | completed => rw [hstatus] at hj; simp [isTerminalStatus] at hj
        | failed => rw [hstatus] at hj; simp [isTerminalStatus] at hj
        | cancelled => rw [hstatus] at hj; simp [isTerminalStatus] at hj
        | queued =>
          simp only [List.cons_append, stream_job_status, consumePre, hstatus]
          exact ih sent hpre'
        | running =>
          simp only [List.cons_append, stream_job_status, consumePre, hstatus]
          exact ih sent hpre'
        | html_ready =>
          cases sent with
          | false =>
            simp only [List.cons_append, stream_job_status, consumePre, hstatus,
              if_pos rfl]
            simp [ih true hpre']
          | true =>
            simp only [List.cons_append, stream_job_status, consumePre, hstatus]
            rw [if_neg (by simp)]
            exact ih true hpre'

/-- The frames emitted over a non-stopping prefix contain no terminal
frame, forward exactly the queued progress events in emission order, and
respect the one-shot budget of the `html_ready_sent` flag. -/
theorem consumePre_spec :
    ∀ (pre : List StreamStep) (sent : Bool), (∀ s ∈ pre, stops s = false) →
      (consumePre pre sent).1.countP isTerminalSSE = 0 ∧
      (consumePre pre sent).1.filter isProgressSSE = pre.filterMap queuedOf ∧
      (consumePre pre sent).1.countP isHtmlSSE +
          (if (consumePre pre sent).2 then 0 else 1) =
        (if sent then 0 else 1) := by
  intro pre
  induction pre with
  | nil => intro sent _; simp [consumePre]
  | cons s pre ih =>
    intro sent hpre
    have hs : stops s = false := hpre s (by simp)
    have hpre' : ∀ x ∈ pre, stops x = false := fun x hx => hpre x (by simp [hx])
    cases s with
    | fromQueue stage cur tot =>
      obtain ⟨ht, hf, hh⟩ := ih sent hpre'
      refine ⟨?_, ?_, ?_⟩
      · simpa [consumePre, List.countP_cons, isTerminalSSE] using ht
      · simpa [consumePre, List.filter_cons, isProgressSSE, queuedOf] using hf
      · simpa [consumePre, List.countP_cons, isHtmlSSE] using hh
    | timeout snap =>
      cases snap with
      | none => simp [stops] at hs
      | some j =>
        have hj : isTerminalStatus j.status = false := by simpa [stops] using hs
        cases hstatus : j.status with
        | completed => rw [hstatus] at hj; simp [isTerminalStatus] at hj
        | failed => rw [hstatus] at hj; simp [isTerminalStatus] at hj
        | cancelled => rw [hstatus] at hj; simp [isTerminalStatus] at hj
        | queued =>
          obtain ⟨ht, hf, hh⟩ := ih sent hpre'
          exact ⟨by simpa [consumePre, hstatus] using ht,
            by simpa [consumePre, hstatus, queuedOf] using hf,
            by simpa [consumePre, hstatus] using hh⟩
        | running =>
          obtain ⟨ht, hf, hh⟩ := ih sent hpre'
          exact ⟨by simpa [consumePre, hstatus] using ht,
            by simpa [consumePre, hstatus, queuedOf] using hf,
            by simpa [consumePre, hstatus] using hh⟩
        | html_ready =>
          cases sent with
          | false =>
            obtain ⟨ht, hf, hh⟩ := ih true hpre'
            have h2 : (consumePre pre true).2 = true := by
              rcases h2 : (consumePre pre true).2 with - | -
              · rw [h2] at hh; simp at hh
              · rfl
            have hcnt : (consumePre pre true).1.countP isHtmlSSE = 0 := by
              rw [h2] at hh
              simpa using hh
            refine ⟨?_, ?_, ?_⟩
            · simpa [consumePre, hstatus, List.countP_cons, isTerminalSSE] using ht
            · simpa [consumePre, hstatus, List.filter_cons, isProgressSSE, queuedOf]
                using hf
            · simp [consumePre, hstatus, List.countP_cons, isHtmlSSE, hcnt, h2]
          | true =>
            obtain ⟨ht, hf, hh⟩ := ih true hpre'
            refine ⟨?_, ?_, ?_⟩
            · simpa [consumePre, hstatus] using ht
            · simpa [consumePre, hstatus, queuedOf] using hf
            · simpa [consumePre, hstatus] using hh

/-- When the generator's status check observes a terminal snapshot, it
emits an optional one-shot html-ready frame, then exactly one terminal
frame, and stops — regardless of what iterations would have followed. -/
theorem stream_terminal_head (j : Job) (sent : Bool)
    (hj : isTerminalStatus j.status = true) :
    ∃ body t,
      (∀ rest, stream_job_status (.timeout (some j) :: rest) sent = body ++ [t]) ∧
      isTerminalSSE t = true ∧
      body.countP isTerminalSSE = 0 ∧
      body.filter isProgressSSE = [] ∧
      body.countP isHtmlSSE ≤ (if sent then 0 else 1) := by
  cases hstatus : j.status with
  | queued => rw [hstatus] at hj; simp [isTerminalStatus] at hj
  | running => rw [hstatus] at hj; simp [isTerminalStatus] at hj
  | html_ready => rw [hstatus] at hj; simp [isTerminalStatus] at hj
  | failed =>
    refine ⟨[], .failed (j.error.getD "Unknown error"), ?_, rfl, rfl, rfl, by simp⟩
    intro rest
    simp [stream_job_status, hstatus]
  | cancelled =>
    refine ⟨[], .cancelled, ?_, rfl, rfl, rfl, by simp⟩
    intro rest
    simp [stream_job_status, hstatus]
  | completed =>
    by_cases hcond : sent = false ∧ j.html_content.isSome = true
    · refine ⟨[.html_ready (j.html_content.getD "")], .completed (j.result.getD ""),
        ?_, rfl, rfl, rfl, ?_⟩
      · intro rest
        simp [stream_job_status, hstatus, hcond.1, hcond.2]
      · rw [hcond.1]
        simp [List.countP_cons, isHtmlSSE]
    · refine ⟨[], .completed (j.result.getD ""), ?_, rfl, rfl, rfl, by simp⟩
      intro rest
      have : ¬(sent = false ∧ j.html_content.isSome) := by
        intro hc; exact hcond ⟨hc.1, hc.2⟩
      simp only [stream_job_status, hstatus]
      rw [if_neg this]
      rfl

/-- C5: over any trace whose first stopping iteration observes a terminal
snapshot, the stream forwards the queued progress events in emission order
strictly before the terminal frame, emits at most one html-ready frame,
and emits exactly one terminal frame as the last frame — after which the
stream stops (iterations after the terminal observation contribute
nothing). -/
theorem C5_stream_events (pre post : List StreamStep) (j : Job)
    (hpre : ∀ s ∈ pre, stops s = false)
    (hj : isTerminalStatus j.status = true) :
    ∃ body t,
      stream_job_status (pre ++ StreamStep.timeout (some j) :: post) false = body ++ [t] ∧
      isTerminalSSE t = true ∧
      body.countP isTerminalSSE = 0 ∧
      (body ++ [t]).countP isHtmlSSE ≤ 1 ∧
      (body ++ [t]).filter isProgressSSE = pre.filterMap queuedOf ∧
      stream_job_status (pre ++ [StreamStep.timeout (some j)]) false = body ++ [t] := by
  obtain ⟨hterm0, hfilter0, hhtml0⟩ := consumePre_spec pre false hpre
  obtain ⟨body2, t, hhead, htermT, hterm2, hprog2, hhtml2⟩ :=
    stream_terminal_head j (consumePre pre false).2 hj
  obtain ⟨htNoHtml, htNoProg⟩ := isTerminalSSE_disjoint t htermT
  refine ⟨(consumePre pre false).1 ++ body2, t, ?_, htermT, ?_, ?_, ?_, ?_⟩
  · rw [stream_append_consumePre (StreamStep.timeout (some j) :: post) pre false hpre,
      hhead post, List.append_assoc]
  · rw [List.countP_append, hterm0, hterm2]
  · rw [List.append_assoc, List.countP_append, List.countP_append]
    have htC : List.countP isHtmlSSE [t] = 0 := by
      simp [List.countP_cons, htNoHtml]
    rw [htC]
    rcases hflag : (consumePre pre false).2 with - | -
    · rw [hflag] at hhtml0 hhtml2
      simp only [if_pos rfl, if_neg (by simp : ¬(false = true))] at hhtml0 hhtml2
      omega
    · rw [hflag] at hhtml0 hhtml2
      simp only [if_pos rfl, if_neg (by simp : ¬(false = true))] at hhtml0 hhtml2
      omega
  · rw [List.append_assoc, List.filter_append, List.filter_append]
    have htF : List.filter isProgressSSE [t] = [] := by
      simp [List.filter_cons, htNoProg]
    rw [htF, hfilter0, hprog2]
    simp
  · rw [stream_append_consumePre [StreamStep.timeout (some j)] pre false hpre,
      hhead [], List.append_assoc]

theorem C5_stream_events_witness :
    (∀ s ∈ [StreamStep.fromQueue "layout" 1 3,
        StreamStep.timeout (some ⟨.running, none, none, none⟩),
        StreamStep.fromQueue "ocr" 2 3], stops s = false) ∧
    isTerminalStatus (⟨.completed, some "RESULT", none, some "<p>"⟩ : Job).status = true ∧
    (∃ body t,
      stream_job_status
          ([StreamStep.fromQueue "layout" 1 3,
            StreamStep.timeout (some ⟨.running, none, none, none⟩),
            StreamStep.fromQueue "ocr" 2 3] ++
            StreamStep.timeout (some ⟨.completed, some "RESULT", none, some "<p>"⟩) ::
              [StreamStep.fromQueue "zz" 9 9]) false = body ++ [t] ∧
      isTerminalSSE t = true ∧
      body.countP isTerminalSSE = 0 ∧
      (body ++ [t]).countP isHtmlSSE ≤ 1 ∧
      (body ++ [t]).filter isProgressSSE =
        [StreamStep.fromQueue "layout" 1 3,
          StreamStep.timeout (some ⟨.running, none, none, none⟩),
          StreamStep.fromQueue "ocr" 2 3].filterMap queuedOf ∧
      stream_job_status
          ([StreamStep.fromQueue "layout" 1 3,
            StreamStep.timeout (some ⟨.running, none, none, none⟩),
            StreamStep.fromQueue "ocr" 2 3] ++
            [StreamStep.timeout (some ⟨.completed, some "RESULT", none, some "<p>"⟩)])
          false = body ++ [t]) :=
  ⟨by decide, by decide,
    C5_stream_events
      [StreamStep.fromQueue "layout" 1 3,
        StreamStep.timeout (some ⟨.running, none, none, none⟩),
        StreamStep.fromQueue "ocr" 2 3]
      [StreamStep.fromQueue "zz" 9 9]
      ⟨.completed, some "RESULT", none, some "<p>"⟩ (by decide) (by decide)⟩

/-! ## Theorems about the serverless handler -/

/-- C10: whenever the handler's input fields are present and the file
download succeeds, the handler ends — on the success path and on every
failure path (conversion error, upload failure) alike — with the
downloaded temp file deleted and the global progress-webhook callback
reset to `None`, so no job's callback remains installed for the next
job. -/
theorem C10_handler_cleanup (inp : HandlerInput) (env : HandlerEnv) (g : GlobalState)
    (hf : inp.file_url.isSome = true) (hr : inp.result_upload_url.isSome = true)
    (hd : env.download_ok = true) :
    (handler inp env g).2.webhook_callback = none ∧
    (handler inp env g).2.temp_file_exists = false := by
  rcases hfu : inp.file_url with - | u
  · rw [hfu] at hf; simp at hf
  rcases hru : inp.result_upload_url with - | r
  · rw [hru] at hr; simp at hr
  rcases hc : env.conversion with e | v
  · constructor <;> simp [handler, hfu, hru, hd, hc]
  · by_cases hu : env.upload_ok = true
    · constructor <;> simp [handler, hfu, hru, hd, hc, hu]
    · constructor <;> simp [handler, hfu, hru, hd, hc, hu]

theorem C10_handler_cleanup_witness :
    (HandlerInput.mk (some "u") (some "r") (some "w")).file_url.isSome = true ∧
    (HandlerInput.mk (some "u") (some "r") (some "w")).result_upload_url.isSome = true ∧
    (HandlerEnv.mk true (.error "crash") true).download_ok = true ∧
    ((handler ⟨some "u", some "r", some "w"⟩ ⟨true, .error "crash", true⟩
          ⟨some "old", false⟩).2.webhook_callback = none ∧
      (handler ⟨some "u", some "r", some "w"⟩ ⟨true, .error "crash", true⟩
          ⟨some "old", false⟩).2.temp_file_exists = false) :=
  ⟨rfl, rfl, rfl,
    C10_handler_cleanup ⟨some "u", some "r", some "w"⟩ ⟨true, .error "crash", true⟩
      ⟨some "old", false⟩ rfl rfl rfl⟩
